import Mathlib

/-!
Verification of the t3volabs/relay blob store (storage/retrieval engine).

The development shallowly embeds the two server variants found in the
repository:

* `src/app.js` — the main variant: SQLite table `objects` with a random
  `id` primary key (`DEFAULT lower(hex(randomblob(16)))`), a non-unique
  `objectId`, owner/`type` scoping, a 25-day TTL filter on reads, and a
  25-day sweep.
* `src/unnamed/part_000` — the content-fingerprint variant: `objectId`
  is the primary key and is the SHA-256 digest of the payload
  concatenated with the hashed owner, a 10-day sweep, and a `/fetch`
  route that reports 404 when a page has no items.

SQLite tables are embedded as Lean lists of rows in insertion order; the
SQL statements the code prepares are embedded as the corresponding list
operations (filter for WHERE, a sort by `created_at` for ORDER BY,
drop/take for OFFSET/LIMIT).  Timestamps are `Int` epoch milliseconds.
Node's `crypto.createHash("sha256")` is external library code and is
modelled as an abstract digest function `hash : String → String`;
properties that need the digest shape assume `GoodHash hash` (output is
64 lowercase hex characters).  The random 16-byte `id` default of
`app.js` is modelled by a fresh counter: the one property the code
relies on is that every insert receives an `id` distinct from all
existing ones.
-/

deriving instance DecidableEq for Except

namespace Relay

/-- TTL in milliseconds: 25 days, as in `expiresAt = now + 25*24*60*60*1000`. -/
def TTL_MS : Int := 25 * 24 * 60 * 60 * 1000

/-- Function `getTTLTimestamp` from `app.js`: the date 25 days before `now`
(`now.setDate(now.getDate() - 25)`), in epoch milliseconds. -/
def getTTLTimestamp (now : Int) : Int := now - TTL_MS

/-- A lowercase hexadecimal character. -/
def isLowerHexChar (c : Char) : Bool :=
  (decide ('0' ≤ c) && decide (c ≤ '9')) || (decide ('a' ≤ c) && decide (c ≤ 'f'))

/-- The shape of a canonical owner key: 64 lowercase hex characters. -/
def isHex64 (s : String) : Bool :=
  s.length == 64 && s.data.all isLowerHexChar

/-- A digest function whose outputs always have the canonical 64-hex shape,
as SHA-256 hex digests do. -/
def GoodHash (hash : String → String) : Prop :=
  ∀ s, isHex64 (hash s) = true

/-- Characters allowed by the `validateType` regex `/^[a-zA-Z0-9_]+$/`. -/
def isTypeChar (c : Char) : Bool := c.isAlphanum || c == '_'

/-- Function `validateType` from `app.js`: a type must be 1–20 characters of
letters, digits and underscores; otherwise an error is thrown. -/
def validateType (t : String) : Except String String :=
  if t.length = 0 || 20 < t.length then
    .error "Type must be a string between 1 and 20 characters"
  else if !(t.data.all isTypeChar) then
    .error "Type must contain only letters, numbers, and underscores"
  else
    .ok t

/-- The owner-canonicalization step of `app.js` (`POST /save`, `GET /fetch`):
`if (userId.length !== 64) userId = sha256hex(userId)`. -/
def canonicalizeUserId (hash : String → String) (userId : String) : String :=
  if userId.length ≠ 64 then hash userId else userId

/-- Numeric value of a list of decimal digit characters. -/
def digitsVal (cs : List Char) : Nat :=
  cs.foldl (fun a c => a * 10 + (c.toNat - 48)) 0

/-- JavaScript `parseInt(s, 10)` restricted to what the routes feed it:
skip leading whitespace, take an optional sign and a maximal run of
decimal digits; `none` models `NaN` (no digits). -/
def jsParseInt (s : String) : Option Int :=
  let cs := s.data.dropWhile (fun c => c == ' ' || c == '\t' || c == '\n' || c == '\r')
  match cs with
  | '-' :: t =>
      let ds := t.takeWhile Char.isDigit
      if ds.isEmpty then none else some (-(digitsVal ds : Int))
  | '+' :: t =>
      let ds := t.takeWhile Char.isDigit
      if ds.isEmpty then none else some ((digitsVal ds : Int))
  | _ =>
      let ds := cs.takeWhile Char.isDigit
      if ds.isEmpty then none else some ((digitsVal ds : Int))

/-- Page parsing used by both variants: `parseInt(page) || 1`.
A missing parameter (`none`), a `NaN` parse, or a parse of `0` (both
falsy in JavaScript) all yield page 1. -/
def pageOf (q : Option String) : Int :=
  match q.bind jsParseInt with
  | none => 1
  | some n => if n = 0 then 1 else n

/-! ### Sorting by `created_at` (ORDER BY created_at DESC) -/

/-- Insert into a list sorted descending by `key`. -/
def insertByKeyDesc (key : α → Int) (r : α) : List α → List α
  | [] => [r]
  | x :: xs => if key x < key r then r :: x :: xs else x :: insertByKeyDesc key r xs

/-- Insertion sort, descending by `key`: the embedding of
`ORDER BY created_at DESC`. -/
def sortByKeyDesc (key : α → Int) : List α → List α
  | [] => []
  | x :: xs => insertByKeyDesc key x (sortByKeyDesc key xs)

theorem mem_insertByKeyDesc (key : α → Int) (r a : α) (l : List α) :
    a ∈ insertByKeyDesc key r l ↔ a = r ∨ a ∈ l := by
  induction l with
  | nil => simp [insertByKeyDesc]
  | cons x xs ih =>
    simp only [insertByKeyDesc]
    split
    · simp [List.mem_cons]
    · simp only [List.mem_cons, ih]
      tauto

theorem length_insertByKeyDesc (key : α → Int) (r : α) (l : List α) :
    (insertByKeyDesc key r l).length = l.length + 1 := by
  induction l with
  | nil => simp [insertByKeyDesc]
  | cons x xs ih =>
    simp only [insertByKeyDesc]
    split
    · simp
    · simp [ih]

theorem mem_sortByKeyDesc (key : α → Int) (a : α) (l : List α) :
    a ∈ sortByKeyDesc key l ↔ a ∈ l := by
  induction l with
  | nil => simp [sortByKeyDesc]
  | cons x xs ih =>
    simp [sortByKeyDesc, mem_insertByKeyDesc, ih]

theorem length_sortByKeyDesc (key : α → Int) (l : List α) :
    (sortByKeyDesc key l).length = l.length := by
  induction l with
  | nil => simp [sortByKeyDesc]
  | cons x xs ih =>
    simp [sortByKeyDesc, length_insertByKeyDesc, ih]

/-! ## The main variant: `src/app.js` -/

/-- A row of the `objects` table of `app.js`:
`id TEXT PRIMARY KEY DEFAULT (lower(hex(randomblob(16))))`, `objectId`,
`userId`, `type` (field `ty` here), `data BLOB`, `created_at INTEGER`. -/
structure Row where
  id : String
  objectId : String
  userId : String
  ty : String
  data : List Nat
  created_at : Int
deriving DecidableEq, Repr

/-- The `app.js` database: the `objects` table in insertion order plus
the source of fresh primary-key defaults (see the module docstring). -/
structure AppDB where
  rows : List Row
  nextId : Nat
deriving DecidableEq, Repr

/-- The fresh `id` the `DEFAULT (lower(hex(randomblob(16))))` clause
produces for the `n`-th insert. -/
def freshId (n : Nat) : String := "id-" ++ toString n

/-- The statement `INSERT OR REPLACE INTO objects (objectId, userId,
type, data, created_at) VALUES (?,?,?,?,?)`: the `id` column is omitted, so it gets
a fresh default; OR REPLACE removes any row with the same primary key
`id` (the only uniqueness constraint of the table) and appends the new
row. -/
def insertObject (db : AppDB) (objectId userId ty : String)
    (data : List Nat) (now : Int) : AppDB :=
  let r : Row := { id := freshId db.nextId, objectId := objectId, userId := userId,
                   ty := ty, data := data, created_at := now }
  { rows := db.rows.filter (fun x => x.id ≠ r.id) ++ [r], nextId := db.nextId + 1 }

/-- Outcome of `POST /save/:type/:userId/:objectId`. -/
inductive SaveOutcome where
  | err (status : Nat) (msg : String)
  | ok (ty userId objectId : String) (size : Nat) (expiresAt : Int)
deriving DecidableEq, Repr

/-- Whether a save outcome is an error response. -/
def SaveOutcome.isErr : SaveOutcome → Bool
  | .err _ _ => true
  | .ok _ _ _ _ _ => false

/-- The `POST /save/:type/:userId/:objectId` handler of `app.js`:
reject an empty body (400), validate the type (400), canonicalize the
userId, then insert; the response carries `expiresAt = now + 25 days`. -/
def postSave (hash : String → String) (db : AppDB)
    (ty userId objectId : String) (data : List Nat) (now : Int) :
    SaveOutcome × AppDB :=
  if data.length = 0 then (.err 400 "No data provided", db)
  else
    match validateType ty with
    | .error msg => (.err 400 msg, db)
    | .ok ty' =>
      let userId' := canonicalizeUserId hash userId
      let db' := insertObject db objectId userId' ty' data now
      (.ok ty' userId' objectId data.length (now + TTL_MS), db')

/-- The query of `GET /object/:objectId`:
`SELECT ... WHERE objectId = ? AND created_at >= ?` with the TTL cutoff;
`stmt.get` returns the first matching row or nothing. -/
def getObject (db : AppDB) (objectId : String) (now : Int) : Option Row :=
  db.rows.find? (fun r => r.objectId == objectId
    && decide (getTTLTimestamp now ≤ r.created_at))

/-- The rows `GET /fetch/:type/:userId` counts and lists:
`WHERE userId = ? AND type = ? AND created_at >= ?` with the TTL cutoff. -/
def liveRows (db : AppDB) (userId ty : String) (now : Int) : List Row :=
  db.rows.filter (fun r => r.userId == userId && r.ty == ty
    && decide (getTTLTimestamp now ≤ r.created_at))

/-- Fixed page size of `GET /fetch` in `app.js`. -/
def pageLimit : Nat := 10

/-- The JSON body returned by `GET /fetch/:type/:userId`. -/
structure FetchResp where
  ty : String
  userId : String
  objects : List Row
  page : Int
  totalObjects : Nat
  totalPages : Nat
  hasNextPage : Bool
  hasPrevPage : Bool
deriving DecidableEq, Repr

/-- The storage query of `GET /fetch/:type/:userId` after validation and
canonicalization: COUNT over the live rows, then
`ORDER BY created_at DESC LIMIT 10 OFFSET (page-1)*10`, with
`totalPages = ceil(count/10)`, `hasNextPage = page < totalPages`,
`hasPrevPage = page > 1`. -/
def listByOwner (db : AppDB) (userId ty : String) (page : Int) (now : Int) :
    FetchResp :=
  let live := liveRows db userId ty now
  let count := live.length
  let offset := ((page - 1) * (pageLimit : Int)).toNat
  let objects := ((sortByKeyDesc Row.created_at live).drop offset).take pageLimit
  let totalPages := (count + pageLimit - 1) / pageLimit
  { ty := ty, userId := userId, objects := objects, page := page,
    totalObjects := count, totalPages := totalPages,
    hasNextPage := decide (page < (totalPages : Int)),
    hasPrevPage := decide (1 < page) }

/-- The `GET /fetch/:type/:userId` handler of `app.js`: parse the page
query (`parseInt || 1`), validate the type, canonicalize the userId,
then run the paginated query. -/
def getFetch (hash : String → String) (db : AppDB) (ty userId : String)
    (pageQ : Option String) (now : Int) : Except String FetchResp :=
  match validateType ty with
  | .error msg => .error msg
  | .ok ty' => .ok (listByOwner db (canonicalizeUserId hash userId) ty' (pageOf pageQ) now)

/-- Function `cleanupExpiredItems` from `app.js`:
`DELETE FROM objects WHERE created_at < ?` at the 25-day cutoff. -/
def cleanupExpiredItems (db : AppDB) (now : Int) : AppDB :=
  { rows := db.rows.filter (fun r => decide (getTTLTimestamp now ≤ r.created_at)),
    nextId := db.nextId }

/-! ## The content-fingerprint variant: `src/unnamed/part_000` -/

/-- A row of the `objects` table of the variant:
`objectId TEXT PRIMARY KEY`, `userId`, `entry BLOB` (the JSON-stringified
body), `created_at INTEGER`. -/
structure Row000 where
  objectId : String
  userId : String
  entry : String
  created_at : Int
deriving DecidableEq, Repr

/-- The statement `INSERT OR REPLACE` in the variant: `objectId` is the primary key,
so OR REPLACE removes any row with the same `objectId` and appends the
new one. -/
def insertOrReplace000 (rows : List Row000) (r : Row000) : List Row000 :=
  rows.filter (fun x => x.objectId ≠ r.objectId) ++ [r]

/-- The `POST /save/:userId` handler of the variant: hash the userId,
reject an empty body, derive `objectId = sha256hex(data + hashedUserId)`
and upsert; the success response carries the objectId (and
`expiresAt = now + 25 days`). -/
def save000 (hash : String → String) (rows : List Row000)
    (userId body : String) (now : Int) : Except String (List Row000 × String) :=
  let hashed := hash userId
  if body.length = 0 then .error "Data is empty or malformed"
  else
    let objectId := hash (body ++ hashed)
    .ok (insertOrReplace000 rows ⟨objectId, hashed, body, now⟩, objectId)

/-- Function `deleteOldEntries` from the variant: `DELETE FROM objects WHERE
created_at < ?` at `now - 10 days` (in milliseconds). -/
def deleteOldEntries (rows : List Row000) (now : Int) : List Row000 :=
  rows.filter (fun r => decide (now - 10 * 24 * 60 * 60 * 1000 ≤ r.created_at))

/-- Query `SELECT COUNT(*) FROM objects` of the `/server` route. -/
def countStar (rows : List Row000) : Nat := rows.length

/-- Query `SELECT COUNT(DISTINCT userId) FROM objects` of the `/server` route. -/
def countDistinctUsers (rows : List Row000) : Nat :=
  ((rows.map Row000.userId).dedup).length

/-- Query `SELECT SUM(LENGTH(entry)) FROM objects` of the `/server` route:
SQL `SUM` is NULL over an empty table. -/
def sumEntryLengths (rows : List Row000) : Option Nat :=
  if rows.isEmpty then none else some ((rows.map (fun r => r.entry.length)).sum)

/-- The `GET /server` stats route of the variant:
`(totalEntries, totalUsers, totalSize)`. -/
def serverStats (rows : List Row000) : Nat × Nat × Option Nat :=
  (countStar rows, countDistinctUsers rows, sumEntryLengths rows)

/-- Page size of the variant's `/fetch` route. -/
def pageLimit000 : Nat := 30

/-- The JSON body returned by the variant's `GET /fetch/:userId/:page`. -/
structure Fetch000Resp where
  page : Int
  totalPages : Nat
  totalCount : Nat
  hasNextPage : Bool
  hasPreviousPage : Bool
  data : List String
deriving DecidableEq, Repr

/-- The `GET /fetch/:userId/:page` handler of the variant: parse the page
(`parseInt(page, 10) || 1`), hash the userId, count and fetch with
`ORDER BY created_at DESC LIMIT 30 OFFSET (page-1)*30` — and respond
404 "No data found" when the fetched page is empty. -/
def fetch000 (hash : String → String) (rows : List Row000)
    (userId pageParam : String) : Except String Fetch000Resp :=
  let page := pageOf (some pageParam)
  let hashed := hash userId
  let offset : Int := (page - 1) * (pageLimit000 : Int)
  let mine := rows.filter (fun r => r.userId == hashed)
  let totalCount := mine.length
  let objects := ((sortByKeyDesc Row000.created_at mine).drop offset.toNat).take pageLimit000
  if objects.isEmpty then .error "No data found"
  else
    .ok { page := page, totalPages := (totalCount + pageLimit000 - 1) / pageLimit000,
          totalCount := totalCount,
          hasNextPage := decide (offset + (pageLimit000 : Int) < (totalCount : Int)),
          hasPreviousPage := decide (1 < page),
          data := objects.map Row000.entry }

/-! ## Fixtures and helper lemmas -/

/-- Sixty-four zero characters: a string of canonical shape, used as the output
of the model digest `hash0`. -/
def zeros64 : String := String.mk (List.replicate 64 '0')

/-- A concrete stand-in for the external SHA-256 digest, used only to
evaluate the handlers at concrete inputs. -/
def hash0 : String → String := fun _ => zeros64

/-- A 64-character identifier made of `'a'`s (canonical shape). -/
def user64a : String := String.mk (List.replicate 64 'a')

/-- A 64-character identifier made of `'z'`s: length 64 but not
hexadecimal. -/
def user64z : String := String.mk (List.replicate 64 'z')

/-- The empty `app.js` database. -/
def emptyAppDB : AppDB := { rows := [], nextId := 0 }

theorem filter_erase_of_not [DecidableEq α] (p : α → Bool) (r : α) (l : List α)
    (h : p r = false) : (l.erase r).filter p = l.filter p := by
  induction l with
  | nil => rfl
  | cons x xs ih =>
    by_cases hx : x = r
    · subst hx
      rw [List.erase_cons_head, List.filter_cons_of_neg]
      simp [h]
    · rw [List.erase_cons_tail (by simp [hx]), List.filter_cons, List.filter_cons, ih]

theorem filter_insertOrReplace000 (rows : List Row000) (r : Row000) :
    (insertOrReplace000 rows r).filter (fun x => x.objectId == r.objectId) = [r] := by
  unfold insertOrReplace000
  rw [List.filter_append, List.filter_filter]
  have h1 : rows.filter (fun x => x.objectId == r.objectId
      && decide ¬x.objectId = r.objectId) = [] := by
    apply List.filter_eq_nil_iff.mpr
    intro a _
    by_cases h : a.objectId = r.objectId <;> simp [h]
  rw [h1]
  simp

/-! ## Claims -/

/-- C6: for every string of 64 hexadecimal characters, the canonicalizer
returns it unchanged (pass-through instead of re-hashing); for inputs of
any other length it returns the SHA-256 hex digest of the input. -/
theorem C6_canonicalize_passthrough_or_hash (hash : String → String) (s : String) :
    (isHex64 s = true → canonicalizeUserId hash s = s)
    ∧ (s.length ≠ 64 → canonicalizeUserId hash s = hash s) := by
  constructor
  · intro h
    have hlen : s.length = 64 := by
      simp [isHex64] at h
      exact h.1
    simp [canonicalizeUserId, hlen]
  · intro h
    simp [canonicalizeUserId, h]

/-- Witness for C6 at a concrete 64-hex string and a concrete short
identifier. -/
theorem C6_canonicalize_witness :
    canonicalizeUserId hash0 user64a = user64a
    ∧ canonicalizeUserId hash0 "alice" = hash0 "alice" :=
  ⟨(C6_canonicalize_passthrough_or_hash hash0 user64a).1 (by decide),
   (C6_canonicalize_passthrough_or_hash hash0 "alice").2 (by decide)⟩

/-- C10: for every list request whose page parameter is missing,
non-numeric (parses to NaN), or 0, the parsed page is 1; for every
parse result p ≥ 1 the parsed page equals p. -/
theorem C10_page_defaults :
    pageOf none = 1
    ∧ (∀ s, jsParseInt s = none → pageOf (some s) = 1)
    ∧ (∀ s, jsParseInt s = some 0 → pageOf (some s) = 1)
    ∧ (∀ s p, jsParseInt s = some p → 1 ≤ p → pageOf (some s) = p) := by
  refine ⟨rfl, ?_, ?_, ?_⟩
  · intro s h; simp [pageOf, h]
  · intro s h; simp [pageOf, h]
  · intro s p h hp
    have hp0 : p ≠ 0 := by omega
    simp [pageOf, h, hp0]

/-- Witness for C10 at concrete page parameters. -/
theorem C10_page_defaults_witness :
    pageOf (some "abc") = 1 ∧ pageOf (some "0") = 1 ∧ pageOf (some "7") = 7 :=
  ⟨C10_page_defaults.2.1 "abc" (by decide),
   C10_page_defaults.2.2.1 "0" (by decide),
   C10_page_defaults.2.2.2 "7" 7 (by decide) (by decide)⟩

/-- C7: the stats route returns the full-table row count, the number of
distinct ownerKeys, and the sum of all payload lengths; on an empty
table the byte-size aggregate is null (so its zero-default equals the
empty sum). -/
theorem C7_server_stats_shape (rows : List Row000) :
    (serverStats rows).1 = rows.length
    ∧ (serverStats rows).2.1 = (rows.map Row000.userId).toFinset.card
    ∧ ((serverStats rows).2.2).getD 0 = (rows.map (fun r => r.entry.length)).sum
    ∧ (rows = [] → (serverStats rows).2.2 = none) := by
  refine ⟨rfl, ?_, ?_, ?_⟩
  · simp [serverStats, countDistinctUsers, List.card_toFinset]
  · by_cases h : rows = []
    · subst h; simp [serverStats, sumEntryLengths]
    · simp [serverStats, sumEntryLengths, h]
  · intro h; subst h; rfl

/-- Witness for C7 on the empty table. -/
theorem C7_server_stats_witness : (serverStats []).2.2 = none :=
  (C7_server_stats_shape []).2.2.2 rfl

/-- C8: a save with an empty payload fails with the empty-payload error,
and when any validation (payload or category) fails the failure is
reported with the stored state unchanged — no mutation happens. -/
theorem C8_validation_before_mutation (hash : String → String) (db : AppDB)
    (ty userId objectId : String) (data : List Nat) (now : Int) :
    (data.length = 0 →
      postSave hash db ty userId objectId data now = (.err 400 "No data provided", db))
    ∧ (∀ msg, validateType ty = .error msg → data.length ≠ 0 →
      postSave hash db ty userId objectId data now = (.err 400 msg, db)) := by
  constructor
  · intro h
    simp [postSave, h]
  · intro msg hv hd
    simp [postSave, hd, hv]

/-- Witness for C8: an empty body and an invalid category both produce
an error response and leave the empty database unchanged. -/
theorem C8_validation_witness :
    postSave hash0 emptyAppDB "note" user64a "k" [] 0
      = (.err 400 "No data provided", emptyAppDB)
    ∧ postSave hash0 emptyAppDB "bad tag!" user64a "k" [1] 0
      = (.err 400 "Type must contain only letters, numbers, and underscores", emptyAppDB) :=
  ⟨(C8_validation_before_mutation hash0 emptyAppDB "note" user64a "k" [] 0).1 rfl,
   (C8_validation_before_mutation hash0 emptyAppDB "bad tag!" user64a "k" [1] 0).2
     "Type must contain only letters, numbers, and underscores" (by decide) (by decide)⟩

/-- C9: in the content-fingerprint variant the stored key is the SHA-256
digest of the payload concatenated with the ownerKey, so saving the
identical payload twice for the same owner is idempotent: after each
save exactly one row exists for that key, and the row after the second
save differs from the row after the first only in `created_at`. -/
theorem C9_fingerprint_idempotent (hash : String → String)
    (rows rows1 rows2 : List Row000) (userId body oid1 oid2 : String)
    (now1 now2 : Int)
    (h1 : save000 hash rows userId body now1 = .ok (rows1, oid1))
    (h2 : save000 hash rows1 userId body now2 = .ok (rows2, oid2)) :
    oid1 = hash (body ++ hash userId)
    ∧ oid2 = oid1
    ∧ rows1.filter (fun r => r.objectId == oid1)
        = [⟨oid1, hash userId, body, now1⟩]
    ∧ rows2.filter (fun r => r.objectId == oid1)
        = [⟨oid1, hash userId, body, now2⟩] := by
  by_cases hb : body.length = 0
  · simp [save000, hb] at h1
  · simp only [save000, hb, if_neg, if_false, Except.ok.injEq, Prod.mk.injEq] at h1 h2
    obtain ⟨hrows1, hoid1⟩ := h1
    obtain ⟨hrows2, hoid2⟩ := h2
    subst hoid1 hoid2 hrows1 hrows2
    refine ⟨rfl, rfl, ?_, ?_⟩
    · simpa using filter_insertOrReplace000 rows
        ⟨hash (body ++ hash userId), hash userId, body, now1⟩
    · simpa using filter_insertOrReplace000
        (insertOrReplace000 rows ⟨hash (body ++ hash userId), hash userId, body, now1⟩)
        ⟨hash (body ++ hash userId), hash userId, body, now2⟩

/-- Witness for C9: two identical saves for owner `"u"` with body `"b"`
leave exactly one row, keyed by the digest, refreshed to the second
timestamp. -/
theorem C9_fingerprint_witness :
    zeros64 = hash0 ("b" ++ hash0 "u")
    ∧ zeros64 = zeros64
    ∧ ([⟨zeros64, zeros64, "b", 1⟩] : List Row000).filter
        (fun r => r.objectId == zeros64) = [⟨zeros64, zeros64, "b", 1⟩]
    ∧ ([⟨zeros64, zeros64, "b", 2⟩] : List Row000).filter
        (fun r => r.objectId == zeros64) = [⟨zeros64, zeros64, "b", 2⟩] :=
  C9_fingerprint_idempotent hash0 [] [⟨zeros64, zeros64, "b", 1⟩]
    [⟨zeros64, zeros64, "b", 2⟩] "u" "b" zeros64 zeros64 1 2
    (by decide) (by decide)

/-- C1: `app.js` documents upsert intent (`INSERT OR REPLACE`), but the
primary key `id` defaults to a fresh random value on every insert, so
the REPLACE never fires: two saves with the same
`(type, userId, objectId)` and different payloads leave TWO rows for
that key, not one.  This theorem evaluates the save path at the failing
input. -/
theorem C1_two_saves_two_rows :
    (((postSave hash0 (postSave hash0 emptyAppDB "note" user64a "obj1" [1] 100).2
        "note" user64a "obj1" [2] 200).2).rows.filter
          (fun r => r.objectId == "obj1")).length = 2 := by decide

/-- C2 counterexample: a caller-supplied identifier of 64 non-hex
characters (`'z'` × 64) reaches storage unchanged — the code only
checks the length, not the hex shape, so a raw identifier is stored as
ownerKey. -/
theorem C2_raw_owner_counterexample :
    ((postSave hash0 emptyAppDB "note" user64z "k" [1] 0).2).rows.map Row.userId
      = [user64z]
    ∧ isHex64 user64z = false := by decide

/-- C2 amended: on a successful save, the stored ownerKey is the digest
of the raw identifier whenever its length is not 64 (hence of canonical
64-lowercase-hex shape, assuming the digest is), while an identifier of
length exactly 64 is stored unchanged — even when it is not
hexadecimal. -/
theorem C2_owner_canonicalization (hash : String → String) (hgood : GoodHash hash)
    (db : AppDB) (ty userId objectId : String) (data : List Nat) (now : Int)
    (hfresh : ∀ r ∈ db.rows, r.id ≠ freshId db.nextId)
    (hdata : data.length ≠ 0) (ty' : String) (hty : validateType ty = .ok ty') :
    ((postSave hash db ty userId objectId data now).2).rows.map Row.userId
      = db.rows.map Row.userId ++ [canonicalizeUserId hash userId]
    ∧ (userId.length ≠ 64 →
        canonicalizeUserId hash userId = hash userId
        ∧ isHex64 (canonicalizeUserId hash userId) = true)
    ∧ (userId.length = 64 → canonicalizeUserId hash userId = userId) := by
  refine ⟨?_, ?_, ?_⟩
  · have hkeep : db.rows.filter (fun x => !decide (x.id = freshId db.nextId)) = db.rows := by
      apply List.filter_eq_self.mpr
      intro a ha
      simpa using hfresh a ha
    simp only [postSave, hdata, if_neg, if_false, hty, insertObject]
    simp [hkeep]
  · intro h
    have : canonicalizeUserId hash userId = hash userId := by
      simp [canonicalizeUserId, h]
    exact ⟨this, this ▸ hgood userId⟩
  · intro h
    simp [canonicalizeUserId, h]

/-- The model digest has canonical-shape outputs. -/
theorem hash0_good : GoodHash hash0 := by
  intro s
  show isHex64 zeros64 = true
  decide

/-- Witness for C2's amended statement: a short identifier is hashed
into canonical shape, on the empty database. -/
theorem C2_owner_canonicalization_witness :
    ((postSave hash0 emptyAppDB "note" "alice" "k" [1] 0).2).rows.map Row.userId
      = emptyAppDB.rows.map Row.userId ++ [canonicalizeUserId hash0 "alice"]
    ∧ canonicalizeUserId hash0 "alice" = hash0 "alice"
    ∧ isHex64 (canonicalizeUserId hash0 "alice") = true :=
  have h := C2_owner_canonicalization hash0 hash0_good emptyAppDB
    "note" "alice" "k" [1] 0 (by simp [emptyAppDB]) (by decide) "note" (by decide)
  ⟨h.1, (h.2.1 (by decide)).1, (h.2.1 (by decide)).2⟩

/-- A 15-day-old row of the variant's table (relative to `now` below). -/
def c4row : Row000 := { objectId := "o", userId := "u", entry := "e", created_at := 0 }

/-- C4: the variant's sweeper `deleteOldEntries` uses a 10-day cutoff
although its own save responses promise `expiresAt = createdAt + 25
days`.  At `now` = 15 days, the claim's cutoff `now - 25 days` lies
before `c4row.created_at`, so the claim says the row remains — but the
sweep deletes it. -/
theorem C4_ten_day_sweep_deletes_fresh_row :
    ((15 * 24 * 60 * 60 * 1000 : Int) - TTL_MS ≤ c4row.created_at)
    ∧ deleteOldEntries [c4row] (15 * 24 * 60 * 60 * 1000) = [] := by decide

/-- A row of the variant owned by the hashed form of `"alice"` under the
model digest. -/
def row000a : Row000 := { objectId := "o", userId := zeros64, entry := "x", created_at := 0 }

/-- C5 counterexample: in the variant, requesting page 2 when only one
row exists (page beyond the last) yields the 404 error "No data found",
not an empty item sequence. -/
theorem C5_variant_errors_on_empty_page :
    fetch000 hash0 [row000a] "alice" "2" = .error "No data found" := by decide

/-- C5 amended, main variant: `listByOwner` uses offset
`(page-1)*pageSize`; when the page is beyond the last
(`offset ≥ totalCount`) the item sequence is empty and `hasNextPage` is
false; `totalPages` always equals the ceiling of
`totalCount / pageSize`. -/
theorem C5_pagination_beyond_last (db : AppDB) (userId ty : String) (page now : Int)
    (h1 : 1 ≤ page)
    (hbeyond : ((liveRows db userId ty now).length : Int) ≤ (page - 1) * (pageLimit : Int)) :
    (listByOwner db userId ty page now).objects = []
    ∧ (listByOwner db userId ty page now).hasNextPage = false
    ∧ ∀ p', (listByOwner db userId ty p' now).totalPages
        = (liveRows db userId ty now).length / pageLimit
          + (if (liveRows db userId ty now).length % pageLimit = 0 then 0 else 1) := by
  have hb : ((liveRows db userId ty now).length : Int) ≤ (page - 1) * 10 := by
    have h := hbeyond
    simp only [pageLimit, Nat.cast_ofNat] at h
    exact h
  refine ⟨?_, ?_, ?_⟩
  · show (((sortByKeyDesc Row.created_at (liveRows db userId ty now)).drop
        (((page - 1) * (pageLimit : Int)).toNat)).take pageLimit) = []
    have hlen : (sortByKeyDesc Row.created_at (liveRows db userId ty now)).length
        ≤ ((page - 1) * (pageLimit : Int)).toNat := by
      rw [length_sortByKeyDesc]
      simp only [pageLimit, Nat.cast_ofNat]
      omega
    rw [List.drop_eq_nil_of_le hlen]
    rfl
  · show decide (page < ((((liveRows db userId ty now).length + pageLimit - 1) / pageLimit : Nat) : Int)) = false
    simp only [pageLimit, decide_eq_false_iff_not, not_lt]
    omega
  · intro p'
    show (((liveRows db userId ty now).length + pageLimit - 1) / pageLimit)
        = (liveRows db userId ty now).length / pageLimit
          + (if (liveRows db userId ty now).length % pageLimit = 0 then 0 else 1)
    simp only [pageLimit]
    by_cases h0 : (liveRows db userId ty now).length % 10 = 0
    · rw [if_pos h0]
      omega
    · rw [if_neg h0]
      omega

/-- Witness for C5's amended statement: page 2 of an empty listing. -/
theorem C5_pagination_witness :
    (listByOwner emptyAppDB user64a "note" 2 5).objects = []
    ∧ (listByOwner emptyAppDB user64a "note" 2 5).hasNextPage = false :=
  have h := C5_pagination_beyond_last emptyAppDB user64a "note" 2 5
    (by decide) (by decide)
  ⟨h.1, h.2.1⟩

/-- C3: a row whose age strictly exceeds the 25-day TTL is invisible:
the single-object lookup returns nothing (given `objectId` identifies
the row uniquely), the row is excluded from the rows the listing counts
and returns, and removing the physical row does not change any listing
— expiry is purely logical. -/
theorem C3_ttl_invisibility (db : AppDB) (now : Int) (r : Row)
    (hr : r ∈ db.rows) (hexp : TTL_MS < now - r.created_at)
    (huniq : ∀ r' ∈ db.rows, r'.objectId = r.objectId → r' = r) :
    getObject db r.objectId now = none
    ∧ (∀ u t, r ∉ liveRows db u t now)
    ∧ (∀ u t, liveRows db u t now = liveRows ⟨db.rows.erase r, db.nextId⟩ u t now) := by
  have hdate : decide (getTTLTimestamp now ≤ r.created_at) = false := by
    simp only [getTTLTimestamp, TTL_MS] at *
    simp only [decide_eq_false_iff_not, not_le]
    omega
  refine ⟨?_, ?_, ?_⟩
  · apply List.find?_eq_none.mpr
    intro x hx
    by_cases hobj : x.objectId = r.objectId
    · have hxr : x = r := huniq x hx hobj
      subst hxr
      simp [hdate]
    · simp [hobj]
  · intro u t hmem
    rw [liveRows, List.mem_filter] at hmem
    have h2 := hmem.2
    rw [hdate] at h2
    simp at h2
  · intro u t
    unfold liveRows
    refine (filter_erase_of_not _ r db.rows ?_).symm
    rw [hdate]
    simp

/-- An expired row and its database: `created_at = 0`, looked at just
past the TTL. -/
def rexp : Row := { id := "id-0", objectId := "o", userId := user64a, ty := "note",
                    data := [1], created_at := 0 }

/-- The database holding only `rexp`. -/
def dbexp : AppDB := { rows := [rexp], nextId := 1 }

/-- Witness for C3 at `now = TTL + 1` (so `createdAt = now - TTL - 1`):
the expired row is invisible to the lookup and to the listing. -/
theorem C3_ttl_witness :
    getObject dbexp rexp.objectId (TTL_MS + 1) = none
    ∧ rexp ∉ liveRows dbexp user64a "note" (TTL_MS + 1) :=
  have h := C3_ttl_invisibility dbexp (TTL_MS + 1) rexp (by decide)
    (by decide) (by decide)
  ⟨h.1, h.2.1 user64a "note"⟩

end Relay
